import Mathlib

/-!
Verification of the authentication facade
(`monkey_island/cc/services/authentication_service/authentication_facade.py`).

The facade's methods are embedded as pure Lean functions: mutable collaborator
state (the OTP repository, the user datastore) is passed and returned
explicitly, and side effects on the event queue and the repository encryptor
are recorded as effect traces.  Monotonic time (`time.monotonic()`) is
modelled as an integer parameter `now`.
-/

namespace Monkey

/-- Instants of `time.monotonic()`, modelled as integers. -/
abbrev Time := Int

/-- Persisted OTP record: `{value: string, expires_at: instant, used: bool}`,
keyed by value (the value is the key of the association list below). -/
structure OTPRecord where
  expiresAt : Time
  used : Bool
deriving Repr, DecidableEq

/-- The OTP Store's records, keyed by OTP value.  `insert` prepends, lookups
find the most recently inserted record for a value. -/
abbrev OTPStore := List (String × OTPRecord)

/-- Lookup of the record stored for an OTP value; `none` models the store
raising `UnknownRecordError`. -/
def lookupOTP : OTPStore → String → Option OTPRecord
  | [], _ => none
  | e :: rest, otp => if e.1 = otp then some e.2 else lookupOTP rest otp

/-- Modelled from the spec: OTP Store `insert(otp, expires_at)` persists
`(value, expiration, used=false)` keyed by value (`i_otp_repository`'s
implementation is not in the excerpt; only its interface and contract are
given). -/
def insert_otp (st : OTPStore) (otp : String) (expirationTime : Time) : OTPStore :=
  (otp, ⟨expirationTime, false⟩) :: st

/-- Modelled from the spec: OTP Store `is_used(otp) -> bool`, failing with an
unknown-record error (`none`) if the OTP is absent. -/
def otp_is_used (st : OTPStore) (otp : String) : Option Bool :=
  (lookupOTP st otp).map OTPRecord.used

/-- Modelled from the spec: OTP Store `set_used(otp)` marks the record for
`otp` as used, leaving its expiration unchanged. -/
def set_used : OTPStore → String → OTPStore
  | [], _ => []
  | e :: rest, otp =>
    if e.1 = otp then (e.1, ⟨e.2.expiresAt, true⟩) :: set_used rest otp
    else e :: set_used rest otp

/-- Modelled from the spec: OTP Store `get_expiration(otp) -> instant`,
failing with an unknown-record error (`none`) if the OTP is absent. -/
def get_expiration (st : OTPStore) (otp : String) : Option Time :=
  (lookupOTP st otp).map OTPRecord.expiresAt

/-- `OTP_EXPIRATION_TIME = 2 * 60  # 2 minutes` (authentication_facade.py,
line 22). -/
def OTP_EXPIRATION_TIME : Time := 2 * 60

/-- `AuthenticationFacade.generate_otp`: builds an OTP from a securely
generated random string, computes `expiration_time = time.monotonic() +
OTP_EXPIRATION_TIME`, inserts the record, and returns the OTP.  The random
string produced by `secure_generate_random_string` and the current monotonic
time are passed as parameters `rnd` and `now`. -/
def generate_otp (st : OTPStore) (now : Time) (rnd : String) : String × OTPStore :=
  let otp := rnd
  let expiration_time := now + OTP_EXPIRATION_TIME
  (otp, insert_otp st otp expiration_time)

/-- `AuthenticationFacade._otp_ttl_elapsed`:
`return self._otp_repository.get_expiration(otp) < time.monotonic()`.
`none` models the store's `UnknownRecordError` propagating out. -/
def otp_ttl_elapsed (st : OTPStore) (otp : String) (now : Time) : Option Bool :=
  (get_expiration st otp).map (fun e => decide (e < now))

/-- The error the OTP Store raises for an unknown OTP value. -/
inductive StoreError where
  | unknownRecordError
deriving Repr, DecidableEq

/-- The body of the `try` block of `AuthenticationFacade.authorize_otp`
(lines 126-138): read the used flag (raising if the OTP is unknown), mark the
OTP used, then return false on replay, true if the TTL has not elapsed, false
otherwise.  Early `return` statements become nested matches. -/
def authorize_otp_try (st : OTPStore) (otp : String) (now : Time) :
    Except StoreError (Bool × OTPStore) :=
  match otp_is_used st otp with
  | none => Except.error StoreError.unknownRecordError
  | some isUsed =>
    let st' := set_used st otp
    if isUsed then Except.ok (false, st')
    else
      match otp_ttl_elapsed st' otp now with
      | none => Except.error StoreError.unknownRecordError
      | some elapsed =>
        if !elapsed then Except.ok (true, st') else Except.ok (false, st')

/-- `AuthenticationFacade.authorize_otp` (lines 122-140): the `try` body with
`UnknownRecordError` caught and converted to `False` (the store is then left
unchanged, as the failing read happens before any write). -/
def authorize_otp (st : OTPStore) (otp : String) (now : Time) : Bool × OTPStore :=
  match authorize_otp_try st otp now with
  | Except.ok r => r
  | Except.error _ => (false, st)

/-- A serialized sequence of `authorize_otp` calls for one OTP value at the
given times: the lock `self._otp_read_lock` (line 45, acquired at line 125)
serializes all concurrent invocations, so any interleaving of N concurrent
calls executes as such a sequence in some order. -/
def authorize_otp_sequence (st : OTPStore) (otp : String) :
    List Time → List Bool × OTPStore
  | [] => ([], st)
  | t :: ts =>
    let r := authorize_otp st otp t
    let rest := authorize_otp_sequence r.2 otp ts
    (r.1 :: rest.1, rest.2)

/-- A user record of the User Directory: identity plus the stable
`fs_uniquifier` that is the token-signing subject. -/
structure User where
  username : String
  fs_uniquifier : String
deriving Repr, DecidableEq

/-- `ParsedToken`: validated decomposition of a refresh token, carrying at
least the `user_uniquifier`. -/
structure ParsedToken where
  user_uniquifier : String
deriving Repr, DecidableEq

/-- Opaque signed token strings. -/
abbrev Token := String

/-- Failures the facade's token-refresh path can produce:
`tokenValidationError` is the typed error of the token parser, while
`genericException msg` is a plain Python `Exception(msg)`. -/
inductive AuthenticationError where
  | tokenValidationError
  | genericException (msg : String)
deriving Repr, DecidableEq

/-- The message of the plain exception raised by
`AuthenticationFacade._get_refresh_token_owner` (line 101). -/
def INVALID_REFRESH_TOKEN_MSG : String := "Invalid refresh token"

/-- Modelled from the spec: the Token Codec and the uniquifier-based token
minting (`TokenParser`, `TokenGenerator` and flask_security's
`user.get_auth_token` are not in the excerpt; only their contracts are given).
`parse` returns `none` exactly when it fails with a token-validation error
(bad signature, malformed structure, or expiry). -/
structure TokenCodec where
  parse : Token → Option ParsedToken
  generate_token : String → Token
  get_auth_token : User → Token

/-- Modelled from the spec: User Directory `find_user(by uniquifier)`. -/
def find_user_by_uniquifier : List User → String → Option User
  | [], _ => none
  | u :: rest, q =>
    if u.fs_uniquifier = q then some u else find_user_by_uniquifier rest q

/-- Modelled from the spec: User Directory `set_uniquifier(user)` rotates the
user's uniquifier to a fresh random value; the fresh value is passed as the
parameter `newUniq`. -/
def set_uniquifier (users : List User) (username : String) (newUniq : String) :
    List User :=
  users.map fun u =>
    if u.username = username then { u with fs_uniquifier := newUniq } else u

/-- The mutable state the facade's token operations can read or write: the
User Directory's records and the OTP Store's records. -/
structure FacadeState where
  users : List User
  otps : OTPStore
deriving Repr

/-- `AuthenticationFacade._get_refresh_token_owner` (lines 98-102): looks the
user up by the token's uniquifier and raises a plain
`Exception("Invalid refresh token")` when no user is found. -/
def get_refresh_token_owner (users : List User) (t : ParsedToken) :
    Except AuthenticationError User :=
  match find_user_by_uniquifier users t.user_uniquifier with
  | none => Except.error (AuthenticationError.genericException INVALID_REFRESH_TOKEN_MSG)
  | some u => Except.ok u

/-- `AuthenticationFacade.generate_new_token_pair` (lines 82-96): parse the
refresh token (a parse failure propagates as `tokenValidationError`), resolve
its owner, mint a fresh access and refresh token.  The method performs no
write, so the state is returned unchanged on every path. -/
def generate_new_token_pair (codec : TokenCodec) (st : FacadeState)
    (refresh_token : Token) :
    Except AuthenticationError (Token × Token) × FacadeState :=
  match codec.parse refresh_token with
  | none => (Except.error AuthenticationError.tokenValidationError, st)
  | some parsed =>
    match get_refresh_token_owner st.users parsed with
    | Except.error e => (Except.error e, st)
    | Except.ok user =>
      (Except.ok (codec.get_auth_token user, codec.generate_token user.fs_uniquifier), st)

/-- `AuthenticationFacade.revoke_all_tokens_for_user` (lines 69-73): rotates
the user's uniquifier via `set_uniquifier`. -/
def revoke_all_tokens_for_user (st : FacadeState) (user : User)
    (newUniq : String) : FacadeState :=
  { st with users := set_uniquifier st.users user.username newUniq }

/-- Topics of the Island event queue used by the facade. -/
inductive IslandEventTopic where
  | CLEAR_SIMULATION_DATA
  | RESET_AGENT_CONFIGURATION
  | SET_ISLAND_MODE
deriving Repr, DecidableEq

/-- Modelled from the spec: island modes; only `UNSET` is used here
(`monkey_island/cc/models`'s `IslandMode` is not in the excerpt). -/
inductive IslandMode where
  | UNSET
deriving Repr, DecidableEq

/-- Side effects of the registration/login paths, in execution order:
publications to the Event Publisher and operations on the Repository
Encryptor.  `unlock` carries the secret string whose UTF-8 encoding is passed
to `ILockableEncryptor.unlock`. -/
inductive Effect where
  | publish (topic : IslandEventTopic) (mode : Option IslandMode)
  | reset_key
  | unlock (secret : String)
deriving Repr, DecidableEq

/-- `_get_secret_from_credentials` (lines 182-183):
`return f"{username}:{password}"`. -/
def get_secret_from_credentials (username : String) (password : String) : String :=
  username ++ ":" ++ password

/-- `AuthenticationFacade._reset_island_data` (lines 159-167): publishes the
three reset events in order. -/
def reset_island_data : List Effect :=
  [Effect.publish IslandEventTopic.CLEAR_SIMULATION_DATA none,
   Effect.publish IslandEventTopic.RESET_AGENT_CONFIGURATION none,
   Effect.publish IslandEventTopic.SET_ISLAND_MODE (some IslandMode.UNSET)]

/-- `AuthenticationFacade._reset_repository_encryptor` (lines 169-172):
derives the secret, resets the encryptor's key, then unlocks it. -/
def reset_repository_encryptor (username : String) (password : String) :
    List Effect :=
  let secret := get_secret_from_credentials username password
  [Effect.reset_key, Effect.unlock secret]

/-- `AuthenticationFacade.handle_successful_registration` (lines 155-157):
resets the island data, then resets and unlocks the repository encryptor. -/
def handle_successful_registration (username : String) (password : String) :
    List Effect :=
  reset_island_data ++ reset_repository_encryptor username password

/-- `AuthenticationFacade._unlock_repository_encryptor` (lines 177-179):
derives the secret and unlocks the encryptor (no key reset). -/
def unlock_repository_encryptor (username : String) (password : String) :
    List Effect :=
  let secret := get_secret_from_credentials username password
  [Effect.unlock secret]

/-- `AuthenticationFacade.handle_successful_login` (lines 174-175). -/
def handle_successful_login (username : String) (password : String) :
    List Effect :=
  unlock_repository_encryptor username password

/-- `string.ascii_letters + string.digits + "._-"`: the alphabet passed to
`secure_generate_random_string` in `generate_otp` (line 110). -/
def otpAlphabet : String :=
  "abcdefghijklmnopqrstuvwxyzABCDEFGHIJKLMNOPQRSTUVWXYZ0123456789._-"

/-- Modelled from the spec: `secure_generate_random_string(n, alphabet)`
(`common/utils/code_utils` is not in the excerpt) returns a random string of
exactly `n` characters, each drawn from `alphabet`; this predicate captures
every string the generator can return. -/
def isSecureRandomString (n : Nat) (alphabet : String) (s : String) : Prop :=
  s.length = n ∧ ∀ c ∈ s.data, c ∈ alphabet.data

instance (n : Nat) (alphabet : String) (s : String) :
    Decidable (isSecureRandomString n alphabet s) := by
  unfold isSecureRandomString; infer_instance

/-! ## Concrete instances used to evaluate the model on sample inputs -/

/-- A sample OTP value standing for a `secure_generate_random_string` output. -/
def c1Rnd : String := "sample-generated-otp"

/-- An OTP whose record expires exactly at instant 100. -/
def boundaryOtp : String := "boundary-otp"

/-- A store holding `boundaryOtp`, unused, expiring at instant 100. -/
def boundaryStore : OTPStore := [(boundaryOtp, ⟨100, false⟩)]

/-- An OTP value that no store in the samples contains. -/
def c5Otp : String := "never-generated-otp"

/-- A sample OTP already marked used. -/
def wOtp : String := "used-otp"

/-- A sample OTP not yet used. -/
def wOtp2 : String := "fresh-otp"

/-- A sample freshly generated OTP value. -/
def wRnd : String := "new-otp"

/-- A sample store with one used and one fresh OTP. -/
def wStore : OTPStore := [(wOtp, ⟨100, true⟩), (wOtp2, ⟨50, false⟩)]

/-- A sample uniquifier no user of the sample directory holds. -/
def c4Uniq : String := "dangling-uniquifier"

/-- A sample refresh token string. -/
def c4Token : String := "refresh-token-1"

/-- A codec whose parse always succeeds, yielding `c4Uniq` as subject. -/
def c4Codec : TokenCodec :=
  { parse := fun _ => some ⟨c4Uniq⟩
    generate_token := fun u => u
    get_auth_token := fun usr => usr.username }

/-- A facade state with an empty user directory. -/
def c4State : FacadeState := { users := [], otps := [] }

/-- A sample username. -/
def aliceName : String := "alice"

/-- Alice's current uniquifier. -/
def aliceUniq : String := "alice-uniq-1"

/-- The fresh uniquifier a revocation rotates Alice to. -/
def aliceUniq2 : String := "alice-uniq-2"

/-- A sample user. -/
def alice : User := { username := aliceName, fs_uniquifier := aliceUniq }

/-- A codec that parses every token to Alice's current uniquifier. -/
def c7Codec : TokenCodec :=
  { parse := fun _ => some ⟨aliceUniq⟩
    generate_token := fun u => u
    get_auth_token := fun usr => usr.username }

/-- A facade state whose directory holds exactly Alice. -/
def c7State : FacadeState := { users := [alice], otps := [] }

/-- A sample refresh token issued to Alice. -/
def c7Token : String := "alice-refresh-token"

/-- A sample 32-character output of `secure_generate_random_string`. -/
def c8Rnd : String := "aaaaaaaaaaaaaaaaaaaaaaaaaaaaaaaa"

/-- First credential pair of the secret-collision example. -/
def splitUserA : String := "a:b"

/-- Password of the first credential pair. -/
def splitPassA : String := "c"

/-- Second credential pair's username. -/
def splitUserB : String := "a"

/-- Password of the second credential pair. -/
def splitPassB : String := "b:c"

/-! ## Lemmas about the OTP store -/

theorem lookup_set_used (st : OTPStore) (x o : String) :
    lookupOTP (set_used st x) o =
      (lookupOTP st o).map fun r => if o = x then ⟨r.expiresAt, true⟩ else r := by
  induction st with
  | nil => rfl
  | cons e rest ih =>
    by_cases h1 : e.1 = x
    · by_cases h2 : e.1 = o
      · subst h1; subst h2
        simp [set_used, lookupOTP]
      · have hxo : ¬ x = o := by rw [← h1]; exact h2
        simp [set_used, lookupOTP, h1, h2, hxo, ih]
    · by_cases h2 : e.1 = o
      · subst h2
        have hox : ¬ e.1 = x := h1
        simp [set_used, lookupOTP, h1, hox, ih]
      · simp [set_used, lookupOTP, h1, h2, ih]

theorem lookup_set_used_self (st : OTPStore) (o : String) (r : OTPRecord)
    (h : lookupOTP st o = some r) :
    lookupOTP (set_used st o) o = some ⟨r.expiresAt, true⟩ := by
  simp [lookup_set_used, h]

theorem lookup_set_used_of_used (st : OTPStore) (x o : String) (r : OTPRecord)
    (h : lookupOTP st o = some r) (hu : r.used = true) :
    lookupOTP (set_used st x) o = some r := by
  cases r with
  | mk exp used =>
    cases hu
    by_cases hox : o = x
    · subst hox; simp [lookup_set_used, h]
    · simp [lookup_set_used, h, hox]

/-! ## Case analysis of authorize_otp -/

theorem authorize_otp_unknown (st : OTPStore) (o : String) (t : Time)
    (h : lookupOTP st o = none) : authorize_otp st o t = (false, st) := by
  simp [authorize_otp, authorize_otp_try, otp_is_used, h]

theorem authorize_otp_replay (st : OTPStore) (o : String) (t : Time)
    (r : OTPRecord) (h : lookupOTP st o = some r) (hu : r.used = true) :
    authorize_otp st o t = (false, set_used st o) := by
  simp [authorize_otp, authorize_otp_try, otp_is_used, h, hu]

theorem authorize_otp_first_fresh (st : OTPStore) (o : String) (t : Time)
    (r : OTPRecord) (h : lookupOTP st o = some r) (hu : r.used = false)
    (hexp : t ≤ r.expiresAt) :
    authorize_otp st o t = (true, set_used st o) := by
  have hlt : ¬ (r.expiresAt < t) := not_lt.mpr hexp
  simp [authorize_otp, authorize_otp_try, otp_is_used, h, hu, otp_ttl_elapsed,
    get_expiration, lookup_set_used_self st o r h, hlt]

theorem authorize_otp_first_expired (st : OTPStore) (o : String) (t : Time)
    (r : OTPRecord) (h : lookupOTP st o = some r) (hu : r.used = false)
    (hexp : r.expiresAt < t) :
    authorize_otp st o t = (false, set_used st o) := by
  simp [authorize_otp, authorize_otp_try, otp_is_used, h, hu, otp_ttl_elapsed,
    get_expiration, lookup_set_used_self st o r h, hexp]

theorem authorize_otp_state_present (st : OTPStore) (o : String) (t : Time)
    (r : OTPRecord) (h : lookupOTP st o = some r) :
    (authorize_otp st o t).2 = set_used st o := by
  cases hu : r.used with
  | true => simp [authorize_otp_replay st o t r h hu]
  | false =>
    by_cases hexp : r.expiresAt < t
    · simp [authorize_otp_first_expired st o t r h hu hexp]
    · simp [authorize_otp_first_fresh st o t r h hu (not_lt.mp hexp)]

theorem authorize_otp_state_cases (st : OTPStore) (x : String) (t : Time) :
    (authorize_otp st x t).2 = st ∨ (authorize_otp st x t).2 = set_used st x := by
  cases hx : lookupOTP st x with
  | none => exact Or.inl (by simp [authorize_otp_unknown st x t hx])
  | some r => exact Or.inr (authorize_otp_state_present st x t r hx)

/-! ## Sequences of authorize_otp calls -/

theorem sequence_all_false_of_used (o : String) (exp : Time) (ts : List Time) :
    ∀ st : OTPStore, lookupOTP st o = some ⟨exp, true⟩ →
      (∀ b ∈ (authorize_otp_sequence st o ts).1, b = false) ∧
      lookupOTP (authorize_otp_sequence st o ts).2 o = some ⟨exp, true⟩ := by
  induction ts with
  | nil =>
    intro st h
    exact ⟨by simp [authorize_otp_sequence], by simpa [authorize_otp_sequence] using h⟩
  | cons t ts ih =>
    intro st h
    have hr := authorize_otp_replay st o t ⟨exp, true⟩ h rfl
    have hl : lookupOTP (set_used st o) o = some ⟨exp, true⟩ :=
      lookup_set_used_self st o ⟨exp, true⟩ h
    have hrec := ih (set_used st o) hl
    constructor
    · intro b hb
      simp only [authorize_otp_sequence, hr, List.mem_cons] at hb
      rcases hb with hb | hb
      · exact hb
      · exact hrec.1 b hb
    · simpa [authorize_otp_sequence, hr] using hrec.2

theorem count_true_eq_zero (bs : List Bool) (h : ∀ b ∈ bs, b = false) :
    bs.count true = 0 := by
  induction bs with
  | nil => rfl
  | cons b bs ih =>
    have hb := h b (List.mem_cons_self b bs)
    subst hb
    simpa using ih fun x hx => h x (List.mem_cons_of_mem _ hx)

/-! ## Claim theorems: OTP lifecycle -/

/-- C1: For every OTP generated by `generate_otp`, the first call to
`authorize_otp` made while the OTP's TTL window has not elapsed returns true,
and every subsequent call with the same OTP, at any later time, returns
false. -/
theorem otp_single_use_within_ttl (st0 : OTPStore) (t0 : Time) (rnd : String)
    (t1 : Time) (ts : List Time)
    (hwin : t1 ≤ t0 + OTP_EXPIRATION_TIME) :
    (authorize_otp (generate_otp st0 t0 rnd).2 (generate_otp st0 t0 rnd).1 t1).1 = true ∧
    ∀ b ∈ (authorize_otp_sequence
        (authorize_otp (generate_otp st0 t0 rnd).2 (generate_otp st0 t0 rnd).1 t1).2
        (generate_otp st0 t0 rnd).1 ts).1, b = false := by
  have hlook : lookupOTP (generate_otp st0 t0 rnd).2 rnd =
      some ⟨t0 + OTP_EXPIRATION_TIME, false⟩ := by
    simp [generate_otp, insert_otp, lookupOTP]
  have h1 := authorize_otp_first_fresh _ rnd t1 _ hlook rfl hwin
  have hfst : (generate_otp st0 t0 rnd).1 = rnd := rfl
  rw [hfst, h1]
  refine ⟨rfl, ?_⟩
  have hl2 : lookupOTP (set_used (generate_otp st0 t0 rnd).2 rnd) rnd =
      some ⟨t0 + OTP_EXPIRATION_TIME, true⟩ :=
    lookup_set_used_self _ rnd _ hlook
  exact fun b hb =>
    (sequence_all_false_of_used rnd (t0 + OTP_EXPIRATION_TIME) ts _ hl2).1 b hb

/-- Witness for C1 at the empty store, generation time 0, first call at the
boundary instant 120, and two later calls. -/
theorem otp_single_use_within_ttl_witness :
    (authorize_otp (generate_otp [] 0 c1Rnd).2 (generate_otp [] 0 c1Rnd).1 120).1 = true ∧
    ∀ b ∈ (authorize_otp_sequence
        (authorize_otp (generate_otp [] 0 c1Rnd).2 (generate_otp [] 0 c1Rnd).1 120).2
        (generate_otp [] 0 c1Rnd).1 [50, 1000]).1, b = false :=
  otp_single_use_within_ttl [] 0 c1Rnd 120 [50, 1000] (by decide)

/-- C2 counterexample: for an unused OTP expiring at instant 100, the first
`authorize_otp` call made exactly at the expiration instant (`now =
expires_at = 100`) returns true, not false: `_otp_ttl_elapsed` tests
`expiration < now`, so the boundary instant is not yet elapsed. -/
theorem otp_boundary_counterexample :
    get_expiration boundaryStore boundaryOtp = some 100 ∧
    (authorize_otp boundaryStore boundaryOtp 100).1 = true := by
  constructor <;> rfl

/-- C2 (amended): for every OTP in the store, a call to `authorize_otp` at a
time strictly after `expires_at` returns false even on first use; a first
call made exactly at the expiration instant is treated as not yet expired
and returns true (`_otp_ttl_elapsed` is `expires_at < now`). -/
theorem otp_expiry_strict_gt (st : OTPStore) (o : String) (t : Time)
    (r : OTPRecord) (h : lookupOTP st o = some r) :
    (r.expiresAt < t → (authorize_otp st o t).1 = false) ∧
    (r.used = false → t = r.expiresAt → (authorize_otp st o t).1 = true) := by
  constructor
  · intro hlt
    cases hu : r.used with
    | true => simp [authorize_otp_replay st o t r h hu]
    | false => simp [authorize_otp_first_expired st o t r h hu hlt]
  · intro hu ht
    simp [authorize_otp_first_fresh st o t r h hu (le_of_eq ht)]

/-- Witness for C2 (amended): at the concrete boundary store, a first call at
instant 101 is rejected and a first call at instant 100 is accepted. -/
theorem otp_expiry_strict_gt_witness :
    (authorize_otp boundaryStore boundaryOtp 101).1 = false ∧
    (authorize_otp boundaryStore boundaryOtp 100).1 = true :=
  ⟨(otp_expiry_strict_gt boundaryStore boundaryOtp 101 ⟨100, false⟩ rfl).1 (by decide),
   (otp_expiry_strict_gt boundaryStore boundaryOtp 100 ⟨100, false⟩ rfl).2 rfl rfl⟩

/-- C3: N ≥ 1 concurrent calls to `authorize_otp` for a freshly generated,
unexpired OTP execute, by the facade's instance-wide `_otp_read_lock`, as a
serial sequence in some order; in every such sequence exactly one call
returns true.  `ts` lists the N calls' times in the order the lock admits
them. -/
theorem otp_concurrent_single_winner (st0 : OTPStore) (t0 : Time)
    (rnd : String) (ts : List Time) (hne : ts ≠ [])
    (hwin : ∀ t ∈ ts, t ≤ t0 + OTP_EXPIRATION_TIME) :
    ((authorize_otp_sequence (generate_otp st0 t0 rnd).2
        (generate_otp st0 t0 rnd).1 ts).1).count true = 1 := by
  cases ts with
  | nil => exact absurd rfl hne
  | cons t ts' =>
    have hlook : lookupOTP (generate_otp st0 t0 rnd).2 rnd =
        some ⟨t0 + OTP_EXPIRATION_TIME, false⟩ := by
      simp [generate_otp, insert_otp, lookupOTP]
    have h1 := authorize_otp_first_fresh _ rnd t _ hlook rfl
      (hwin t (List.mem_cons_self _ _))
    have hl2 : lookupOTP (set_used (generate_otp st0 t0 rnd).2 rnd) rnd =
        some ⟨t0 + OTP_EXPIRATION_TIME, true⟩ :=
      lookup_set_used_self _ rnd _ hlook
    have hall :=
      (sequence_all_false_of_used rnd (t0 + OTP_EXPIRATION_TIME) ts' _ hl2).1
    have hzero := count_true_eq_zero _ hall
    have hfst : (generate_otp st0 t0 rnd).1 = rnd := rfl
    rw [hfst]
    simp [authorize_otp_sequence, h1, hzero]

/-- Witness for C3 with three serialized calls, all within the TTL window. -/
theorem otp_concurrent_single_winner_witness :
    ((authorize_otp_sequence (generate_otp [] 0 c1Rnd).2
        (generate_otp [] 0 c1Rnd).1 [5, 120, 7]).1).count true = 1 :=
  otp_concurrent_single_winner [] 0 c1Rnd [5, 120, 7] (by decide) (by decide)

/-- C5: for an OTP value absent from the store, the `try` body of
`authorize_otp` fails with the store's unknown-record error, and
`authorize_otp` itself catches it and returns plain false with the store
untouched — no exception reaches the facade's caller. -/
theorem authorize_unknown_otp_false_no_raise (st : OTPStore) (o : String)
    (t : Time) (h : lookupOTP st o = none) :
    authorize_otp_try st o t = Except.error StoreError.unknownRecordError ∧
    authorize_otp st o t = (false, st) := by
  refine ⟨?_, authorize_otp_unknown st o t h⟩
  simp [authorize_otp_try, otp_is_used, h]

/-- Witness for C5: an OTP value never inserted into the sample store. -/
theorem authorize_unknown_otp_false_no_raise_witness :
    authorize_otp_try wStore c5Otp 3 = Except.error StoreError.unknownRecordError ∧
    authorize_otp wStore c5Otp 3 = (false, wStore) :=
  authorize_unknown_otp_false_no_raise wStore c5Otp 3 rfl

/-- C6: (a) every `authorize_otp` call on an OTP present in the store leaves
that OTP marked used, regardless of its prior used-state and of the returned
value; (b) a used mark survives every `authorize_otp` call (for any OTP
value); (c) a used mark survives `generate_otp` for any freshly generated
value (one not already in the store, as `secure_generate_random_string`
yields).  No other facade operation touches the OTP store. -/
theorem otp_used_flag_monotone :
    (∀ (st : OTPStore) (o : String) (t : Time) (r : OTPRecord),
        lookupOTP st o = some r →
        lookupOTP (authorize_otp st o t).2 o = some ⟨r.expiresAt, true⟩) ∧
    (∀ (st : OTPStore) (x : String) (t : Time) (o : String) (r : OTPRecord),
        lookupOTP st o = some r → r.used = true →
        lookupOTP (authorize_otp st x t).2 o = some r) ∧
    (∀ (st : OTPStore) (now : Time) (rnd o : String) (r : OTPRecord),
        lookupOTP st rnd = none → lookupOTP st o = some r → r.used = true →
        lookupOTP (generate_otp st now rnd).2 o = some r) := by
  refine ⟨?_, ?_, ?_⟩
  · intro st o t r h
    rw [authorize_otp_state_present st o t r h]
    exact lookup_set_used_self st o r h
  · intro st x t o r h hu
    rcases authorize_otp_state_cases st x t with hc | hc
    · rw [hc]; exact h
    · rw [hc]; exact lookup_set_used_of_used st x o r h hu
  · intro st now rnd o r hfresh h hu
    have hne : ¬ rnd = o := by
      intro he; subst he; rw [hfresh] at h; exact Option.noConfusion h
    simp [generate_otp, insert_otp, lookupOTP, hne, h]

/-- Witness for C6 on the sample store: authorizing the fresh OTP marks it
used; the already-used OTP stays used across an `authorize_otp` for a
different value and across a `generate_otp`. -/
theorem otp_used_flag_monotone_witness :
    lookupOTP (authorize_otp wStore wOtp2 10).2 wOtp2 = some ⟨50, true⟩ ∧
    lookupOTP (authorize_otp wStore wOtp2 10).2 wOtp = some ⟨100, true⟩ ∧
    lookupOTP (generate_otp wStore 0 wRnd).2 wOtp = some ⟨100, true⟩ :=
  ⟨otp_used_flag_monotone.1 wStore wOtp2 10 ⟨50, false⟩ rfl,
   otp_used_flag_monotone.2.1 wStore wOtp2 10 wOtp ⟨100, true⟩ rfl rfl,
   otp_used_flag_monotone.2.2 wStore 0 wRnd wOtp ⟨100, true⟩ rfl rfl rfl⟩

/-! ## Lemma about uniquifier rotation -/

theorem find_user_set_uniquifier_none (users : List User) (n q newU : String)
    (hall : ∀ v ∈ users, v.fs_uniquifier = q → v.username = n)
    (hne : newU ≠ q) :
    find_user_by_uniquifier (set_uniquifier users n newU) q = none := by
  induction users with
  | nil => rfl
  | cons v rest ih =>
    have hrest := ih fun w hw hq => hall w (List.mem_cons_of_mem _ hw) hq
    by_cases hv : v.username = n
    · simp only [set_uniquifier, List.map_cons] at hrest ⊢
      simp [find_user_by_uniquifier, hv, hne, hrest]
    · have hvq : ¬ v.fs_uniquifier = q :=
        fun hq => hv (hall v (List.mem_cons_self _ _) hq)
      simp only [set_uniquifier, List.map_cons] at hrest ⊢
      simp [find_user_by_uniquifier, hv, hvq, hrest]

/-! ## Claim theorems: tokens, registration and login -/

/-- C4 (divergence at the failing input): a refresh token that parses
successfully but whose uniquifier resolves to no user makes
`generate_new_token_pair` fail with the plain
`Exception("Invalid refresh token")` of `_get_refresh_token_owner`, which is
not the `TokenValidationError` the claim (and the method's own docstring)
require. -/
theorem refresh_unknown_user_generic_exception :
    (generate_new_token_pair c4Codec c4State c4Token).1 =
      Except.error (AuthenticationError.genericException INVALID_REFRESH_TOKEN_MSG) ∧
    AuthenticationError.genericException INVALID_REFRESH_TOKEN_MSG ≠
      AuthenticationError.tokenValidationError :=
  ⟨rfl, by decide⟩

/-- C7: a successful `generate_new_token_pair` leaves the facade state
unchanged (it neither rotates the subject's uniquifier nor writes any store),
so the same refresh token succeeds again on the resulting state; and once
`revoke_all_tokens_for_user` rotates the subject's uniquifier to a fresh
value, the same refresh token fails. -/
theorem token_refresh_frame (codec : TokenCodec) (st : FacadeState) (r : Token)
    (pt : ParsedToken) (u : User) (newUniq : String)
    (hp : codec.parse r = some pt)
    (hf : find_user_by_uniquifier st.users pt.user_uniquifier = some u) :
    ((generate_new_token_pair codec st r).2 = st) ∧
    ((generate_new_token_pair codec st r).1 =
      Except.ok (codec.get_auth_token u, codec.generate_token u.fs_uniquifier)) ∧
    ((generate_new_token_pair codec (generate_new_token_pair codec st r).2 r).1 =
      Except.ok (codec.get_auth_token u, codec.generate_token u.fs_uniquifier)) ∧
    (newUniq ≠ pt.user_uniquifier →
      (∀ v ∈ st.users, v.fs_uniquifier = pt.user_uniquifier → v.username = u.username) →
      (generate_new_token_pair codec (revoke_all_tokens_for_user st u newUniq) r).1 =
        Except.error (AuthenticationError.genericException INVALID_REFRESH_TOKEN_MSG)) := by
  have hmain : generate_new_token_pair codec st r =
      (Except.ok (codec.get_auth_token u, codec.generate_token u.fs_uniquifier), st) := by
    simp [generate_new_token_pair, hp, get_refresh_token_owner, hf]
  refine ⟨by rw [hmain], by rw [hmain], by rw [hmain, hmain], ?_⟩
  intro hnu hall
  have hnone :=
    find_user_set_uniquifier_none st.users u.username pt.user_uniquifier newUniq hall hnu
  simp [generate_new_token_pair, hp, get_refresh_token_owner,
    revoke_all_tokens_for_user, hnone]

/-- Witness for C7: Alice's refresh token refreshes twice against the same
state, then fails after her uniquifier is rotated. -/
theorem token_refresh_frame_witness :
    ((generate_new_token_pair c7Codec c7State c7Token).2 = c7State) ∧
    ((generate_new_token_pair c7Codec c7State c7Token).1 =
      Except.ok (c7Codec.get_auth_token alice, c7Codec.generate_token alice.fs_uniquifier)) ∧
    ((generate_new_token_pair c7Codec
        (generate_new_token_pair c7Codec c7State c7Token).2 c7Token).1 =
      Except.ok (c7Codec.get_auth_token alice, c7Codec.generate_token alice.fs_uniquifier)) ∧
    ((generate_new_token_pair c7Codec
        (revoke_all_tokens_for_user c7State alice aliceUniq2) c7Token).1 =
      Except.error (AuthenticationError.genericException INVALID_REFRESH_TOKEN_MSG)) := by
  have h := token_refresh_frame c7Codec c7State c7Token ⟨aliceUniq⟩ alice aliceUniq2
    rfl (by decide)
  exact ⟨h.1, h.2.1, h.2.2.1, h.2.2.2 (by decide) (by decide)⟩

/-- C8: `generate_otp` turns a `secure_generate_random_string` output into an
OTP of (at least) 32 characters drawn from letters, digits and `._-`, with
absolute expiration `creation time + OTP_EXPIRATION_TIME` where
`OTP_EXPIRATION_TIME = 120` seconds, and the record `(value, expiration,
used=false)` is in the store the call returns along with the value. -/
theorem generate_otp_spec (st : OTPStore) (now : Time) (rnd : String)
    (h : isSecureRandomString 32 otpAlphabet rnd) :
    32 ≤ ((generate_otp st now rnd).1).length ∧
    (∀ c ∈ ((generate_otp st now rnd).1).data, c ∈ otpAlphabet.data) ∧
    OTP_EXPIRATION_TIME = 120 ∧
    lookupOTP (generate_otp st now rnd).2 (generate_otp st now rnd).1 =
      some ⟨now + 120, false⟩ := by
  obtain ⟨h1, h2⟩ := h
  refine ⟨?_, ?_, by decide, ?_⟩
  · rw [show (generate_otp st now rnd).1 = rnd from rfl, h1]
  · exact fun c hc => h2 c hc
  · show lookupOTP (insert_otp st rnd (now + OTP_EXPIRATION_TIME)) rnd =
      some ⟨now + 120, false⟩
    norm_num [insert_otp, lookupOTP, OTP_EXPIRATION_TIME]

/-- Witness for C8 at a concrete 32-character random string. -/
theorem generate_otp_spec_witness :
    32 ≤ ((generate_otp [] 0 c8Rnd).1).length ∧
    (∀ c ∈ ((generate_otp [] 0 c8Rnd).1).data, c ∈ otpAlphabet.data) ∧
    OTP_EXPIRATION_TIME = 120 ∧
    lookupOTP (generate_otp [] 0 c8Rnd).2 (generate_otp [] 0 c8Rnd).1 =
      some ⟨0 + 120, false⟩ :=
  generate_otp_spec [] 0 c8Rnd (by decide)

/-- C9: `handle_successful_registration` publishes the clear-simulation-data,
reset-agent-configuration and set-island-mode(UNSET) events in that order,
then resets the repository encryptor's key, then unlocks it with the secret
`username ++ ":" ++ password`. -/
theorem registration_effects_order (username password : String) :
    handle_successful_registration username password =
      [Effect.publish IslandEventTopic.CLEAR_SIMULATION_DATA none,
       Effect.publish IslandEventTopic.RESET_AGENT_CONFIGURATION none,
       Effect.publish IslandEventTopic.SET_ISLAND_MODE (some IslandMode.UNSET),
       Effect.reset_key,
       Effect.unlock (username ++ ":" ++ password)] := rfl

/-- C10: the secret keying the repository encryptor is the plain
concatenation `username ++ ":" ++ password`, which is not injective in the
credential pair: the distinct pairs ("a:b", "c") and ("a", "b:c") derive the
same secret, and `handle_successful_login` on either pair performs the
identical unlock. -/
theorem secret_derivation_not_injective :
    (splitUserA, splitPassA) ≠ (splitUserB, splitPassB) ∧
    get_secret_from_credentials splitUserA splitPassA =
      get_secret_from_credentials splitUserB splitPassB ∧
    handle_successful_login splitUserA splitPassA =
      handle_successful_login splitUserB splitPassB :=
  ⟨by decide, by decide, by decide⟩

end Monkey
